import Mathlib

set_option maxRecDepth 2000

/-!
Shallow embedding of the drift-detection service in `src/evidently/main.py`
(FastAPI service: production-data buffer, reference store, drift analysis,
report archive, Prometheus gauges), together with proofs about the claims
of the specification.

Numeric feature values are modelled as rationals (`ℚ`); captured records
(Python dicts) as association lists from column name to value; a pandas
`DataFrame` as its column-name list plus its rows; wall-clock time as an
opaque pair of formatted strings (ISO format and `strftime` second format),
passed explicitly to the functions that call `datetime.now()`.
-/

namespace DriftService

/-- A captured record (`Dict[str, ...]`): association list from column name
to numeric value. -/
abbrev Rec := List (String × ℚ)

/-- A pandas `DataFrame`: a list of column names and a list of rows.
Values are looked up in a row by column name. -/
structure DataFrame where
  cols : List String
  rows : List Rec
deriving DecidableEq

/-- `len(df)`: number of rows. -/
def DataFrame.length (df : DataFrame) : ℕ := df.rows.length

/-- `pd.DataFrame()`: the empty frame. -/
def DataFrame.empty : DataFrame := ⟨[], []⟩

/-- `df[cs].copy()`: column selection keeps the rows and restricts the
column list. -/
def DataFrame.select (df : DataFrame) (cs : List String) : DataFrame :=
  ⟨cs, df.rows⟩

/-- `pd.DataFrame(records)` for a list of dicts: the columns are the union
of the record keys (deduplicated) and each dict becomes one row. -/
def dataFrameOfRecords (records : List Rec) : DataFrame :=
  ⟨(records.flatMap (fun r => r.map Prod.fst)).dedup, records⟩

/-- A `datetime.now()` value, reduced to the two formats the service
consumes: `isoformat()` and `strftime "%Y%m%d_%H%M%S"`. -/
structure Timestamp where
  iso : String
  compact : String
deriving DecidableEq

/-- The buffer capacity hard-coded in `DataStore.add_production_data`. -/
def capacity : ℕ := 10000

/-- `DataStore.add_production_data`: append the record, then keep only the
last 10000 entries (`self.production_data[-10000:]`) when the length
exceeds 10000. -/
def add_production_data (buf : List Rec) (d : Rec) : List Rec :=
  let b := buf ++ [d]
  if b.length > capacity then b.drop (b.length - capacity) else b

/-- Python list slicing `l[k:]` with a signed start index: a nonnegative
start drops the first `k` elements; a negative start keeps the last `|k|`
elements (clamped). -/
def pySliceFrom (k : ℤ) (l : List α) : List α :=
  if 0 ≤ k then l.drop k.toNat else l.drop (l.length - (-k).toNat)

/-- `DataStore.get_production_dataframe(window_size)`: an empty buffer gives
an empty frame; a falsy `window_size` (absent or `0`) selects the whole
buffer; otherwise the slice `self.production_data[-window_size:]`. -/
def get_production_dataframe (buf : List Rec) (window_size : Option ℤ) :
    DataFrame :=
  if buf = [] then DataFrame.empty
  else
    let data := match window_size with
      | some w => if w = 0 then buf else pySliceFrom (-w) buf
      | none => buf
    dataFrameOfRecords data

/-- `DataStore.clear_production_data`. -/
def clear_production_data (_buf : List Rec) : List Rec := []

/-- The metadata columns excluded from drift comparison in
`perform_drift_analysis` (`exclude_cols`). -/
def exclude_cols : List String := ["prediction", "timestamp", "model_version"]

/-- The aligned feature set of `perform_drift_analysis`: the intersection of
the two frames' column sets (`set(reference.columns) & set(current.columns)`),
minus `exclude_cols`. The intersection is represented in reference-column
order; the claims about it are set-level. -/
def feature_columns (reference_data current_data : DataFrame) : List String :=
  let common_cols := reference_data.cols.filter (fun c => c ∈ current_data.cols)
  common_cols.filter (fun c => c ∉ exclude_cols)

/-- A per-column statistical drift test, as run by the statistics library for
one column of the aligned frames: it returns the column's drift score and
drift flag. The embedding is parametric in this function; the claims under
study do not depend on the concrete test, only on its determinism, which a
function value has by construction. -/
abbrev ColumnTest := String → DataFrame → DataFrame → ℚ × Bool

/-- Result of the library's `DatasetDriftMetric` as consumed by
`perform_drift_analysis`: dataset flag, share of drifted columns, and the
per-column map of `(drift_score, drift_detected)`. -/
structure DatasetDriftResult where
  dataset_drift : Bool
  share_of_drifted_columns : ℚ
  drift_by_columns : List (String × ℚ × Bool)
deriving DecidableEq

/-- Modelled from the spec: the statistics library's `DatasetDriftMetric`
(third-party code, not under `src/`). Per the spec it runs one test per
column, reports `share_of_drifted_columns = drifted_feature_count /
aligned_feature_count`, and sets `dataset_drift` iff the proportion of
drifted columns exceeds the library's fixed internal default ratio `0.5`
(the caller-supplied threshold plays no part). The flag is stated in the
equivalent integer form `column_count < 2 * drifted_count`; the theorem
`datasetDriftMetric_dataset_drift` below proves it equal to
`1/2 < share_of_drifted_columns`. -/
def datasetDriftMetric (test : ColumnTest) (ref_df curr_df : DataFrame) :
    DatasetDriftResult :=
  let per := ref_df.cols.map (fun c => (c, test c ref_df curr_df))
  let drifted := (per.filter (fun p => p.2.2)).length
  let share : ℚ := (drifted : ℚ) / (ref_df.cols.length : ℚ)
  ⟨decide (ref_df.cols.length < 2 * drifted), share, per⟩

/-- The JSON body returned by `perform_drift_analysis`. -/
structure AnalysisResult where
  status : String
  timestamp : String
  drift_detected : Bool
  drift_score : ℚ
  drifted_features : List String
  drift_scores : List (String × ℚ)
  total_features : ℕ
  drifted_count : ℕ
  report_url : String
  report_filename : String
  reference_samples : ℕ
  current_samples : ℕ
deriving DecidableEq

/-- The `ValueError` message raised when no common feature columns exist. -/
def no_common_features_msg : String :=
  "No common features found between reference and current data"

/-- `perform_drift_analysis(reference_data, current_data, threshold)`:
aligns columns, runs the drift report, and assembles the summary dict.
`test` stands for the library's per-column statistical test and `now` for
the `datetime.now()` calls. The `threshold` parameter is accepted exactly
as in the source, where the function body never reads it. -/
def perform_drift_analysis (test : ColumnTest) (now : Timestamp)
    (reference_data current_data : DataFrame) (threshold : Option ℚ) :
    Except String AnalysisResult :=
  let feature_cols := feature_columns reference_data current_data
  if feature_cols = [] then .error no_common_features_msg
  else
    let ref_df := reference_data.select feature_cols
    let curr_df := current_data.select feature_cols
    let m := datasetDriftMetric test ref_df curr_df
    let drift_detected := m.dataset_drift
    let drift_score := m.share_of_drifted_columns
    let drifted_features := (m.drift_by_columns.filter (fun p => p.2.2)).map Prod.fst
    let drift_scores := m.drift_by_columns.map (fun p => (p.1, p.2.1))
    let report_filename := "drift_report_" ++ now.compact ++ ".html"
    .ok {
      status := "success"
      timestamp := now.iso
      drift_detected := drift_detected
      drift_score := if drift_detected then drift_score else 0
      drifted_features := drifted_features
      drift_scores := drift_scores
      total_features := feature_cols.length
      drifted_count := drifted_features.length
      report_url := "/reports/" ++ report_filename
      report_filename := report_filename
      reference_samples := ref_df.length
      current_samples := curr_df.length }

/-- The `detail` of one of the service's `HTTPException(status_code=400)`
error responses, plus the 500 wrapper for internal errors. -/
inductive ApiError where
  | noReferenceLoaded
  | noProductionData
  | emptyDataset
  | internalError (msg : String)
deriving DecidableEq

/-- The HTTP status code attached to each error. -/
def ApiError.statusCode : ApiError → ℕ
  | .noReferenceLoaded => 400
  | .noProductionData => 400
  | .emptyDataset => 400
  | .internalError _ => 500

/-- The metadata dict built by `upload_reference_data` and stored by
`DataStore.save_reference_data` (also written to `metadata.json`). -/
structure RefMetadata where
  description : String
  uploaded_at : String
  samples : ℕ
  features : List String
deriving DecidableEq

/-- The whole mutable state of the service: the `DataStore` fields, the
files written under the reference and reports directories, and the
Prometheus gauges and counters touched by the analysis path. -/
structure ServiceState where
  reference_data : Option DataFrame
  reference_metadata : Option RefMetadata
  persisted_reference : Option DataFrame
  persisted_metadata : Option RefMetadata
  production_data : List Rec
  last_analysis_time : Option Timestamp
  analysis_count : ℕ
  drift_detected_gauge : Bool
  drift_score_gauge : ℚ
  drifted_features_count_gauge : ℕ
  feature_drift_gauge : List (String × Bool)
  reports : List String
deriving DecidableEq

/-- `FEATURE_DRIFT.labels(feature_name=f).set(b)`: update one labelled gauge
value in place, or create the label. -/
def setLabelled (g : List (String × Bool)) (f : String) (b : Bool) :
    List (String × Bool) :=
  if g.any (fun p => p.1 = f) then
    g.map (fun p => if p.1 = f then (f, b) else p)
  else g ++ [(f, b)]

/-- The body of `/analyze` requests. `window_size` and `threshold` are both
`Optional` with defaults `100` and `0.1`: an omitted field takes the
default, an explicit JSON `null` yields `none`. -/
structure DriftAnalysisRequest where
  window_size : Option ℤ
  threshold : Option ℚ
deriving DecidableEq

/-- Pydantic parsing of a `DriftAnalysisRequest` body: the outer `Option`
is field presence, the inner one an explicit `null`. No validation is
applied to the integer. -/
def DriftAnalysisRequest.parse (ws : Option (Option ℤ)) (th : Option (Option ℚ)) :
    DriftAnalysisRequest :=
  ⟨ws.getD (some 100), th.getD (some (1 / 10))⟩

/-- The body of `/reference` upload requests. -/
structure ReferenceDataRequest where
  data : List Rec
  feature_names : List String
  description : Option String
deriving DecidableEq

/-- The success body of `/reference` uploads. -/
structure UploadResponse where
  status : String
  message : String
  samples : ℕ
  features : List String
deriving DecidableEq

/-- The `analyze_drift` endpoint (`POST /analyze`): fail with 400 when no
reference is loaded; take the production window; fail with 400 when it is
empty; otherwise run `perform_drift_analysis` and, on success, apply its
metric/report side effects, bump the analysis counter and set
`last_analysis_time`. An exception escaping the analysis is returned as a
500 without touching the state. -/
def analyze_drift (test : ColumnTest) (now : Timestamp) (st : ServiceState)
    (request : DriftAnalysisRequest) :
    Except ApiError AnalysisResult × ServiceState :=
  match st.reference_data with
  | none => (.error .noReferenceLoaded, st)
  | some ref =>
    let production_df := get_production_dataframe st.production_data request.window_size
    if production_df.length = 0 then (.error .noProductionData, st)
    else
      match perform_drift_analysis test now ref production_df request.threshold with
      | .error msg => (.error (.internalError msg), st)
      | .ok r =>
        (.ok r,
         { st with
            drift_detected_gauge := r.drift_detected
            drift_score_gauge := r.drift_score
            drifted_features_count_gauge := r.drifted_count
            feature_drift_gauge :=
              (r.drift_scores.map Prod.fst).foldl
                (fun g f => setLabelled g f (f ∈ r.drifted_features)) st.feature_drift_gauge
            reports := r.report_filename :: st.reports
            analysis_count := st.analysis_count + 1
            last_analysis_time := some now })

/-- The `upload_reference_data` endpoint (`POST /reference`): build the
frame; reject an empty one with 400 before anything is stored; otherwise
write the CSV and metadata sidecar and replace the in-memory reference
(`DataStore.save_reference_data`). -/
def upload_reference_data (now : Timestamp) (st : ServiceState)
    (request : ReferenceDataRequest) :
    Except ApiError UploadResponse × ServiceState :=
  let df := dataFrameOfRecords request.data
  if df.length = 0 then (.error .emptyDataset, st)
  else
    let metadata : RefMetadata :=
      { description := request.description.getD "Reference dataset"
        uploaded_at := now.iso
        samples := df.length
        features := if request.feature_names = [] then df.cols else request.feature_names }
    (.ok { status := "success"
           message := "Reference data uploaded successfully"
           samples := df.length
           features := df.cols },
     { st with
        reference_data := some df
        reference_metadata := some metadata
        persisted_reference := some df
        persisted_metadata := some metadata })

/-- The fields of an `AnalysisResult` that carry the statistical verdict
(flag, share, per-feature scores and flags, feature and sample counts), as
opposed to the wall-clock fields (`timestamp`, `report_url`,
`report_filename`) and the constant `status`. -/
def AnalysisResult.stats (r : AnalysisResult) :
    Bool × ℚ × List String × List (String × ℚ) × ℕ × ℕ × ℕ × ℕ :=
  (r.drift_detected, r.drift_score, r.drifted_features, r.drift_scores,
   r.total_features, r.drifted_count, r.reference_samples, r.current_samples)

/-- A freshly started service with nothing loaded. -/
def emptyState : ServiceState :=
  { reference_data := none
    reference_metadata := none
    persisted_reference := none
    persisted_metadata := none
    production_data := []
    last_analysis_time := none
    analysis_count := 0
    drift_detected_gauge := false
    drift_score_gauge := 0
    drifted_features_count_gauge := 0
    feature_drift_gauge := []
    reports := [] }

/-- A per-column test that never reports drift (used as a concrete library
instance in witnesses and counterexamples). -/
def constTest : ColumnTest := fun _ _ _ => (0, false)

/-- A per-column test under which exactly the column `"a"` drifts. -/
def oneDriftTest : ColumnTest :=
  fun c _ _ => if c = "a" then (1, true) else (0, false)

/-- A sample wall-clock instant. -/
def ts0 : Timestamp := ⟨"2026-01-01T00:00:00", "20260101_000000"⟩

/-- A later sample wall-clock instant. -/
def ts1 : Timestamp := ⟨"2026-01-01T00:00:01", "20260101_000001"⟩

/-- A sample single-feature record. -/
def oneRecord : Rec := [("x", 1)]

/-- A reference frame with the three feature columns `a`, `b`, `c`. -/
def refABC : DataFrame := dataFrameOfRecords [[("a", 0), ("b", 0), ("c", 0)]]

/-- A current frame with the same three feature columns. -/
def currABC : DataFrame := dataFrameOfRecords [[("a", 5), ("b", 0), ("c", 0)]]

/-- A service state with a one-feature reference loaded and one production
record buffered. -/
def loadedState : ServiceState :=
  { emptyState with
      reference_data := some (dataFrameOfRecords [oneRecord])
      production_data := [oneRecord] }

/-- A service state with a reference loaded and an empty buffer. -/
def noProdState : ServiceState :=
  { emptyState with reference_data := some (dataFrameOfRecords [oneRecord]) }

/-- A service state with a reference loaded and 101 buffered production
records. -/
def buf101State : ServiceState :=
  { emptyState with
      reference_data := some (dataFrameOfRecords [oneRecord])
      production_data := List.replicate 101 oneRecord }

/-! ## Theorems -/

/-- The integer form of the dataset-drift flag in `datasetDriftMetric` is
the library rule "share of drifted columns exceeds the default ratio
`0.5`". -/
theorem datasetDriftMetric_dataset_drift (test : ColumnTest)
    (ref_df curr_df : DataFrame) :
    (datasetDriftMetric test ref_df curr_df).dataset_drift = true ↔
      (1 : ℚ) / 2 <
        (datasetDriftMetric test ref_df curr_df).share_of_drifted_columns := by
  unfold datasetDriftMetric
  simp only [decide_eq_true_eq]
  set t := ref_df.cols.length with ht
  set d := ((ref_df.cols.map (fun c => (c, test c ref_df curr_df))).filter
      (fun p => p.2.2)).length with hd
  have hdt : d ≤ t := by
    rw [hd, ht]
    calc ((ref_df.cols.map (fun c => (c, test c ref_df curr_df))).filter
            (fun p => p.2.2)).length
        ≤ (ref_df.cols.map (fun c => (c, test c ref_df curr_df))).length :=
          List.length_filter_le _ _
      _ = ref_df.cols.length := List.length_map _ _
  rcases Nat.eq_zero_or_pos t with h0 | hpos
  · have hd0 : d = 0 := Nat.le_zero.mp (h0 ▸ hdt)
    rw [h0, hd0]
    norm_num
  · have htQ : (0 : ℚ) < (t : ℚ) := by exact_mod_cast hpos
    rw [div_lt_div_iff₀ (by norm_num) htQ]
    constructor
    · intro h
      have hq : (t : ℚ) < 2 * (d : ℚ) := by exact_mod_cast h
      linarith
    · intro h
      have hq : (t : ℚ) < 2 * (d : ℚ) := by linarith
      exact_mod_cast hq

/-- Folding `add_production_data` from any buffer not over capacity keeps
exactly the last `capacity` records of the concatenation. -/
theorem foldl_add_production_data (l : List Rec) :
    ∀ buf : List Rec, buf.length ≤ capacity →
      List.foldl add_production_data buf l
        = (buf ++ l).drop ((buf ++ l).length - capacity) := by
  induction l with
  | nil =>
    intro buf hb
    simp [Nat.sub_eq_zero_of_le hb]
  | cons x l ih =>
    intro buf hb
    rw [List.foldl_cons, List.append_cons buf x l]
    by_cases h : (buf ++ [x]).length > capacity
    · have hlen : (buf ++ [x]).length = capacity + 1 := by
        simp only [List.length_append, List.length_singleton] at h ⊢
        omega
      have hstep : add_production_data buf x = (buf ++ [x]).drop 1 := by
        rw [add_production_data, if_pos h, hlen, Nat.add_sub_cancel_left]
      rw [hstep, ih _ (by rw [List.length_drop, hlen]; omega)]
      rw [← List.drop_append_of_le_length (by rw [hlen]; omega), List.drop_drop]
      have hdd : ∀ i j : ℕ, i = j →
          ((buf ++ [x]) ++ l).drop i = ((buf ++ [x]) ++ l).drop j :=
        fun i j hij => by rw [hij]
      apply hdd
      simp only [List.length_append, List.length_drop, List.length_singleton, hlen]
      omega
    · have hstep : add_production_data buf x = buf ++ [x] := by
        rw [add_production_data, if_neg h]
      rw [hstep, ih _ (Nat.not_lt.mp h)]

/-- C3: `window(n)` on a buffer of `m` records returns all of them when `n`
is absent or `0`, and for positive `n` the `min(n, m)` most recent records
in original insertion order — the suffix obtained by dropping the `m - n`
oldest. -/
theorem window_returns_min_recent (buf : List Rec) (n : ℕ) :
    (get_production_dataframe buf none).rows = buf ∧
    (get_production_dataframe buf (some 0)).rows = buf ∧
    (0 < n →
      (get_production_dataframe buf (some (n : ℤ))).rows
          = buf.drop (buf.length - n) ∧
      (get_production_dataframe buf (some (n : ℤ))).rows.length
          = min n buf.length) := by
  by_cases h : buf = []
  · subst h
    simp [get_production_dataframe, DataFrame.empty]
  · refine ⟨by simp [get_production_dataframe, dataFrameOfRecords, h], ?_, fun hn => ?_⟩
    · simp [get_production_dataframe, dataFrameOfRecords, h]
    · have hz : (n : ℤ) ≠ 0 := by exact_mod_cast Nat.pos_iff_ne_zero.mp hn
      have hrows : (get_production_dataframe buf (some (n : ℤ))).rows
          = buf.drop (buf.length - n) := by
        simp only [get_production_dataframe, if_neg h, hz, if_false, pySliceFrom,
          dataFrameOfRecords]
        have hneg : ¬ (0 ≤ -(n : ℤ)) := by omega
        rw [if_neg hneg]
        norm_num
      refine ⟨hrows, ?_⟩
      rw [hrows, List.length_drop]
      omega

/-- C3 witness: on a three-record buffer, `window(2)` is the two most
recent records in order, of length `min 2 3`. -/
theorem window_returns_min_recent_witness :
    (get_production_dataframe [[("a", (1 : ℚ))], [("a", 2)], [("a", 3)]]
        (some ((2 : ℕ) : ℤ))).rows
      = [[("a", (1 : ℚ))], [("a", 2)], [("a", 3)]].drop
          ([[("a", (1 : ℚ))], [("a", 2)], [("a", 3)]].length - 2) ∧
    (get_production_dataframe [[("a", (1 : ℚ))], [("a", 2)], [("a", 3)]]
        (some ((2 : ℕ) : ℤ))).rows.length
      = min 2 [[("a", (1 : ℚ))], [("a", 2)], [("a", 3)]].length :=
  (window_returns_min_recent [[("a", (1 : ℚ))], [("a", 2)], [("a", 3)]] 2).2.2
    (by decide)

/-- C4: appending any sequence of records to an initially empty buffer
leaves exactly the records past the first `length - 10000` (so the last
`10000` in FIFO order once capacity is exceeded), the buffer never holds
more than `capacity = 10000` records, and appending `10001` records leaves
exactly records `2..10001`. -/
theorem buffer_capacity_fifo (l : List Rec) :
    List.foldl add_production_data [] l = l.drop (l.length - capacity) ∧
    (List.foldl add_production_data [] l).length ≤ capacity ∧
    (l.length = 10001 → List.foldl add_production_data [] l = l.drop 1) := by
  have h := foldl_add_production_data l [] (by simp [capacity])
  simp only [List.nil_append] at h
  refine ⟨h, ?_, fun h1 => ?_⟩
  · rw [h, List.length_drop]
    omega
  · rw [h, h1]
    norm_num [capacity]

/-- C4 witness: appending 10001 records to an empty buffer leaves records
2..10001. -/
theorem buffer_capacity_fifo_witness :
    List.foldl add_production_data [] (List.replicate 10001 oneRecord)
      = (List.replicate 10001 oneRecord).drop 1 :=
  (buffer_capacity_fifo (List.replicate 10001 oneRecord)).2.2
    (by rw [List.length_replicate])

/-- C10: a negative `window_size` `w` makes the slice
`production_data[-window_size:]` start at the positive index `|w|`, so the
analyzed window drops the `|w|` oldest records and keeps the rest; the
request model passes any signed integer through unvalidated. -/
theorem negative_window_drops_oldest (buf : List Rec) (w : ℤ) (hw : w < 0)
    (th : Option (Option ℚ)) :
    (get_production_dataframe buf (some w)).rows = buf.drop (-w).toNat ∧
    (DriftAnalysisRequest.parse (some (some w)) th).window_size = some w := by
  refine ⟨?_, rfl⟩
  by_cases h : buf = []
  · subst h
    simp [get_production_dataframe, DataFrame.empty]
  · have hz : w ≠ 0 := by omega
    simp only [get_production_dataframe, if_neg h, hz, if_false, pySliceFrom,
      dataFrameOfRecords]
    rw [if_pos (by omega)]

/-- C10 witness: on a three-record buffer, `window_size = -2` keeps only
the third (most recent) record — everything but the two oldest. -/
theorem negative_window_drops_oldest_witness :
    (get_production_dataframe [[("a", (1 : ℚ))], [("a", 2)], [("a", 3)]]
        (some (-2))).rows
      = [[("a", (1 : ℚ))], [("a", 2)], [("a", 3)]].drop (-(-2 : ℤ)).toNat ∧
    (DriftAnalysisRequest.parse (some (some (-2))) none).window_size
      = some (-2) :=
  negative_window_drops_oldest [[("a", (1 : ℚ))], [("a", 2)], [("a", 3)]]
    (-2) (by decide) none

/-- C9: uploading an empty record list fails with the empty-dataset error,
whose status is 400, and returns the service state exactly unchanged — the
in-memory reference and metadata, the persisted reference files, the
buffer, and all metrics stay what they were. -/
theorem empty_reference_upload_rejected (now : Timestamp) (st : ServiceState)
    (request : ReferenceDataRequest) (h : request.data = []) :
    upload_reference_data now st request = (.error .emptyDataset, st) ∧
    ApiError.emptyDataset.statusCode = 400 := by
  refine ⟨?_, rfl⟩
  simp [upload_reference_data, dataFrameOfRecords, DataFrame.length, h]

/-- C9 witness: an empty upload against the fresh service is rejected with
the 400 empty-dataset error and leaves the state untouched. -/
theorem empty_reference_upload_rejected_witness :
    upload_reference_data ts0 emptyState
        { data := [], feature_names := ["x"], description := none }
      = (.error .emptyDataset, emptyState) ∧
    ApiError.emptyDataset.statusCode = 400 :=
  empty_reference_upload_rejected ts0 emptyState
    { data := [], feature_names := ["x"], description := none } rfl

/-- C6: an analyze call before any reference upload fails with the 400
no-reference error, and one whose production window is empty fails with the
400 no-production-data error; in both cases the returned state is exactly
the input state — no report recorded, no counter, gauge, timestamp, buffer
or reference change. -/
theorem analyze_errors_no_side_effects (test : ColumnTest) (now : Timestamp)
    (st : ServiceState) (request : DriftAnalysisRequest) :
    (st.reference_data = none →
      analyze_drift test now st request = (.error .noReferenceLoaded, st)) ∧
    (st.reference_data ≠ none →
      (get_production_dataframe st.production_data request.window_size).length = 0 →
      analyze_drift test now st request = (.error .noProductionData, st)) ∧
    ApiError.noReferenceLoaded.statusCode = 400 ∧
    ApiError.noProductionData.statusCode = 400 := by
  refine ⟨fun h => ?_, fun h1 h2 => ?_, rfl, rfl⟩
  · simp [analyze_drift, h]
  · cases href : st.reference_data with
    | none => exact absurd href h1
    | some ref => simp [analyze_drift, href, h2]

/-- C6 witness: the fresh service rejects analysis with the 400
no-reference error; a service with a reference but an empty buffer rejects
it with the 400 no-production-data error; neither changes the state. -/
theorem analyze_errors_no_side_effects_witness :
    analyze_drift constTest ts0 emptyState (DriftAnalysisRequest.parse none none)
      = (.error .noReferenceLoaded, emptyState) ∧
    analyze_drift constTest ts0 noProdState (DriftAnalysisRequest.parse none none)
      = (.error .noProductionData, noProdState) :=
  ⟨(analyze_errors_no_side_effects constTest ts0 emptyState
      (DriftAnalysisRequest.parse none none)).1 rfl,
   (analyze_errors_no_side_effects constTest ts0 noProdState
      (DriftAnalysisRequest.parse none none)).2.1 (by decide) (by decide)⟩

/-- C8: the aligned feature set is exactly the intersection of the
reference and production column sets with the metadata keys `prediction`,
`timestamp`, `model_version` removed; and the analysis fails with the
no-common-features error iff that set is empty. -/
theorem feature_alignment (test : ColumnTest) (now : Timestamp)
    (ref curr : DataFrame) (th : Option ℚ) :
    (∀ c, c ∈ feature_columns ref curr ↔
        (c ∈ ref.cols ∧ c ∈ curr.cols ∧ c ∉ exclude_cols)) ∧
    (perform_drift_analysis test now ref curr th = .error no_common_features_msg
      ↔ feature_columns ref curr = []) := by
  constructor
  · intro c
    simp only [feature_columns, List.mem_filter, decide_eq_true_eq,
      Bool.not_eq_true', decide_eq_false_iff_not]
    tauto
  · constructor
    · intro h
      by_contra hne
      simp only [perform_drift_analysis] at h
      rw [if_neg hne] at h
      exact absurd h (by simp)
    · intro h
      simp only [perform_drift_analysis]
      rw [if_pos h]

/-- C2: the caller-supplied threshold does not influence the verdict: two
analyze calls on the same state whose requests differ only in the threshold
value return the same response — dataset flag, share, per-feature scores
and flags, and every other field — and the same final state. -/
theorem threshold_has_no_effect (test : ColumnTest) (now : Timestamp)
    (st : ServiceState) (ws : Option ℤ) (t1 t2 : Option ℚ) :
    analyze_drift test now st ⟨ws, t1⟩ = analyze_drift test now st ⟨ws, t2⟩ := by
  have hperf : ∀ ref df, perform_drift_analysis test now ref df t1
      = perform_drift_analysis test now ref df t2 := fun _ _ => rfl
  simp only [analyze_drift, hperf]

/-- C1 counterexample: with three aligned features of which exactly one
drifts, the drifted/aligned fraction is 1/3 and the dataset is not flagged
drifted (1/3 is below the internal 0.5 ratio), so the verdict's drift share
is zeroed to 0 — not the fraction 1/3 the claim requires. -/
theorem drift_share_zeroed_counterexample :
    (perform_drift_analysis oneDriftTest ts0 refABC currABC none).toOption.map
        (fun r => (r.drift_detected, r.drifted_count, r.total_features, r.drift_score))
      = some (false, 1, 3, 0) ∧ (0 : ℚ) ≠ (1 : ℚ) / 3 := by
  refine ⟨by decide, by norm_num⟩

/-- C1 amended: for every successful analysis the verdict's drift share
equals `drifted_feature_count / aligned_feature_count` when
`dataset_drifted` is true, and is zeroed to `0` when `dataset_drifted` is
false. -/
theorem drift_share_formula (test : ColumnTest) (now : Timestamp)
    (ref curr : DataFrame) (th : Option ℚ) :
    match perform_drift_analysis test now ref curr th with
    | .ok r =>
        r.drift_score =
          if r.drift_detected then
            (r.drifted_count : ℚ) / (r.total_features : ℚ)
          else 0
    | .error _ => True := by
  simp only [perform_drift_analysis]
  by_cases hfc : feature_columns ref curr = []
  · rw [if_pos hfc]
    trivial
  · rw [if_neg hfc]
    simp [datasetDriftMetric, DataFrame.select, List.length_map]

/-- Running the analysis at a different instant changes only the
timestamp-derived fields of the result (`timestamp`, `report_filename`,
`report_url`). -/
theorem perform_timestamp_only (test : ColumnTest) (now1 now2 : Timestamp)
    (ref curr : DataFrame) (th : Option ℚ) :
    perform_drift_analysis test now2 ref curr th
      = (perform_drift_analysis test now1 ref curr th).map
          (fun r =>
            { r with
                timestamp := now2.iso
                report_filename := "drift_report_" ++ now2.compact ++ ".html"
                report_url :=
                  "/reports/" ++ ("drift_report_" ++ now2.compact ++ ".html") }) := by
  simp only [perform_drift_analysis]
  by_cases hfc : feature_columns ref curr = []
  · simp [hfc, Except.map]
  · simp [hfc, Except.map]

/-- An analyze call never changes the loaded reference or the production
buffer. -/
theorem analyze_preserves_data (test : ColumnTest) (now : Timestamp)
    (st : ServiceState) (request : DriftAnalysisRequest) :
    (analyze_drift test now st request).2.reference_data = st.reference_data ∧
    (analyze_drift test now st request).2.production_data = st.production_data := by
  cases href : st.reference_data with
  | none => simp [analyze_drift, href]
  | some ref =>
    simp only [analyze_drift, href]
    by_cases hlen : (get_production_dataframe st.production_data
        request.window_size).length = 0
    · simp [hlen, href]
    · simp only [if_neg hlen]
      cases hperf : perform_drift_analysis test now ref
          (get_production_dataframe st.production_data request.window_size)
          request.threshold with
      | error msg => simp [hperf, href]
      | ok r => simp [hperf, href]

/-- The statistical verdict of an analyze call depends only on the test,
the loaded reference and the production window — not on the clock nor on
the metric/report fields of the state. -/
theorem analyze_stats_depends_only_on_data (test : ColumnTest)
    (now1 now2 : Timestamp) (st1 st2 : ServiceState)
    (request : DriftAnalysisRequest)
    (href : st1.reference_data = st2.reference_data)
    (hprod : st1.production_data = st2.production_data) :
    ((analyze_drift test now1 st1 request).1).map AnalysisResult.stats
      = ((analyze_drift test now2 st2 request).1).map AnalysisResult.stats := by
  cases h2 : st2.reference_data with
  | none => simp [analyze_drift, href, hprod, h2]
  | some ref =>
    simp only [analyze_drift, href, hprod, h2]
    by_cases hlen : (get_production_dataframe st2.production_data
        request.window_size).length = 0
    · simp [hlen]
    · simp only [if_neg hlen]
      have hpt := perform_timestamp_only test now2 now1 ref
        (get_production_dataframe st2.production_data request.window_size)
        request.threshold
      cases hperf : perform_drift_analysis test now2 ref
          (get_production_dataframe st2.production_data request.window_size)
          request.threshold with
      | error msg =>
        rw [hperf] at hpt
        simp [hpt, hperf, Except.map]
      | ok r =>
        rw [hperf] at hpt
        simp [hpt, hperf, Except.map, AnalysisResult.stats]

/-- C5 counterexample: two sequential analyze calls one second apart, with
identical reference and production window, return verdicts differing in the
report-artifact reference (`report_filename`) — so not every field of the
two returned verdicts is equal. -/
theorem sequential_analyze_counterexample :
    ((analyze_drift constTest ts0 loadedState
          (DriftAnalysisRequest.parse none none)).1).toOption.map
        (fun r => r.report_filename)
      = some "drift_report_20260101_000000.html" ∧
    ((analyze_drift constTest ts1
          (analyze_drift constTest ts0 loadedState
            (DriftAnalysisRequest.parse none none)).2
          (DriftAnalysisRequest.parse none none)).1).toOption.map
        (fun r => r.report_filename)
      = some "drift_report_20260101_000001.html" ∧
    ("drift_report_20260101_000000.html" : String)
      ≠ "drift_report_20260101_000001.html" := by
  refine ⟨by decide, by decide, by decide⟩

/-- C5 amended: two sequential analyze calls with the same reference and
the same production window agree on every statistical field of the verdict
— dataset flag, drift share, per-feature scores and flags, feature and
sample counts; only the timestamp-derived fields (`timestamp`,
`report_url`, `report_filename`) follow each call's clock. -/
theorem sequential_analyze_same_stats (test : ColumnTest)
    (now1 now2 : Timestamp) (st : ServiceState)
    (request : DriftAnalysisRequest) :
    ((analyze_drift test now2 (analyze_drift test now1 st request).2
          request).1).map AnalysisResult.stats
      = ((analyze_drift test now1 st request).1).map AnalysisResult.stats := by
  obtain ⟨h1, h2⟩ := analyze_preserves_data test now1 st request
  exact analyze_stats_depends_only_on_data test now2 now1 _ st request h1 h2

/-- On success, the verdict's current-sample count is the row count of the
analyzed window frame. -/
theorem perform_current_samples (test : ColumnTest) (now : Timestamp)
    (ref curr : DataFrame) (th : Option ℚ) :
    match perform_drift_analysis test now ref curr th with
    | .ok r => r.current_samples = curr.length
    | .error _ => True := by
  simp only [perform_drift_analysis]
  by_cases hfc : feature_columns ref curr = []
  · rw [if_pos hfc]
    trivial
  · rw [if_neg hfc]
    simp [DataFrame.select, DataFrame.length]

/-- C7 counterexample: a service holding 101 buffered records, analyzed by
a request that omits the window size, reports 100 current samples — the
default window size of 100 — not the 101 records of the entire buffer. -/
theorem omitted_window_counterexample :
    buf101State.production_data.length = 101 ∧
    ((analyze_drift constTest ts0 buf101State
          (DriftAnalysisRequest.parse none none)).1).toOption.map
        (fun r => r.current_samples) = some 100 ∧
    (100 : ℕ) ≠ 101 := by
  refine ⟨by decide, by decide, by decide⟩

/-- C7 amended: a request that omits the window size gets the default
window size 100, so a successful analyze call reports `min 100 m` current
samples over a buffer of size `m` — the entire buffer only when
`m ≤ 100`. -/
theorem omitted_window_defaults_to_100 (test : ColumnTest) (now : Timestamp)
    (st : ServiceState) (th : Option (Option ℚ)) :
    (DriftAnalysisRequest.parse none th).window_size = some 100 ∧
    (match (analyze_drift test now st (DriftAnalysisRequest.parse none th)).1 with
      | .ok r => r.current_samples = min 100 st.production_data.length
      | .error _ => True) := by
  refine ⟨rfl, ?_⟩
  have hws : (DriftAnalysisRequest.parse none th).window_size = some 100 := rfl
  cases href : st.reference_data with
  | none => simp [analyze_drift, href]
  | some ref =>
    simp only [analyze_drift, href, hws]
    by_cases hbuf : st.production_data = []
    · simp [get_production_dataframe, hbuf, DataFrame.length, DataFrame.empty]
    · have hlen100 : (get_production_dataframe st.production_data
          (some 100)).length = min 100 st.production_data.length := by
        simp only [get_production_dataframe, if_neg hbuf, pySliceFrom,
          dataFrameOfRecords, DataFrame.length]
        norm_num [List.length_drop]
        omega
      by_cases hlen : (get_production_dataframe st.production_data
          (some 100)).length = 0
      · simp [hlen]
      · rw [if_neg hlen]
        have hcs := perform_current_samples test now ref
          (get_production_dataframe st.production_data (some 100))
          (DriftAnalysisRequest.parse none th).threshold
        cases hperf : perform_drift_analysis test now ref
            (get_production_dataframe st.production_data (some 100))
            (DriftAnalysisRequest.parse none th).threshold with
        | error msg => simp [hperf]
        | ok r =>
          rw [hperf] at hcs
          simp only [] at hcs
          simp only [hperf]
          rw [hcs, hlen100]

end DriftService
